import Mathlib

/-!
Verification of the DCF valuation engine of `src/app.py`
(`income_valuation`, lines 103–115, and the scenario block, lines 162–188).

Modelling conventions:
* Python floats are embedded as rationals (`ℚ`); all quantities appearing in
  the claims are exact rational expressions of the inputs.
* Python runtime failures are made explicit with `Except PyError`:
  `x / 0.0` on Python floats raises `ZeroDivisionError`, and `nois[-1]` on an
  empty list raises `IndexError`.  (NumPy element-wise division, used for the
  `pvs` array, does not raise; in the regimes of every claim the denominators
  `(1 + discount_rate) ** t` are nonzero, so total rational division is a
  faithful model there.)
* The Streamlit widget for the valuation period (`st.number_input` with
  integer `value=64, step=1`) always produces an `int`, so the principal
  embedding takes `term : ℤ`; `int(term)` is then the identity and
  `(1 + discount_rate) ** term` is an integer power (`zpow`).  A second
  embedding with `term : ℚ` (`FracAssumptions`) models a fractional `term`
  passed directly to the function, where `int(term)` truncates.
* The source's `cost_ratio` parameter is named `op_cost` here.
-/

set_option maxRecDepth 10000

/-- The Python runtime errors that `income_valuation` can raise. -/
inductive PyError where
  | zeroDivision
  | indexError
deriving DecidableEq

/-- The eight positional parameters of `income_valuation` (src/app.py:103-104).
`op_cost` is the source's `cost_ratio`. -/
structure Assumptions where
  base_rent : ℚ
  rent_growth : ℚ
  occupancy : ℚ
  op_cost : ℚ
  discount_rate : ℚ
  long_growth : ℚ
  term : ℤ
  area : ℚ
deriving DecidableEq

instance instDecEqExcept {ε α : Type} [DecidableEq ε] [DecidableEq α] :
    DecidableEq (Except ε α) := fun x y =>
  match x, y with
  | Except.error a, Except.error b =>
      if h : a = b then isTrue (by rw [h])
      else isFalse (by intro hc; injection hc; contradiction)
  | Except.error _, Except.ok _ => isFalse (by intro hc; exact Except.noConfusion hc)
  | Except.ok _, Except.error _ => isFalse (by intro hc; exact Except.noConfusion hc)
  | Except.ok a, Except.ok b =>
      if h : a = b then isTrue (by rw [h])
      else isFalse (by intro hc; injection hc; contradiction)

/-- Python float division: `x / y` raises `ZeroDivisionError` when `y == 0`. -/
def pydiv (x y : ℚ) : Except PyError ℚ :=
  if y = 0 then Except.error PyError.zeroDivision else Except.ok (x / y)

/-- Python `xs[-1]`: last element of a list, `IndexError` when empty. -/
def pyLast (xs : List ℚ) : Except PyError ℚ :=
  match xs.getLast? with
  | some x => Except.ok x
  | none => Except.error PyError.indexError

/-- Gross rent of year `t`:
`rent_t = base_rent * ((1 + rent_growth) ** t) * occupancy * area * 12`
(src/app.py:107). -/
def rent_at (a : Assumptions) (t : ℕ) : ℚ :=
  a.base_rent * ((1 + a.rent_growth) ^ t) * a.occupancy * a.area * 12

/-- Operating cost of year `t`: `cost_t = rent_t * cost_ratio` (src/app.py:108). -/
def cost_at (a : Assumptions) (t : ℕ) : ℚ :=
  rent_at a t * a.op_cost

/-- The value appended to `nois` for year `t`: `rent_t - cost_t`
(src/app.py:109). -/
def noi_at (a : Assumptions) (t : ℕ) : ℚ :=
  rent_at a t - cost_at a t

/-- The `nois` list built by the loop `for t in range(1, int(term) + 1)`
(src/app.py:105-109).  `range(1, n + 1)` enumerates `1, …, n`. -/
def nois (a : Assumptions) : List ℚ :=
  (List.range a.term.toNat).map (fun i => noi_at a (i + 1))

/-- The array `years = np.arange(1, int(term) + 1)` (src/app.py:112). -/
def years (term : ℤ) : List ℕ :=
  (List.range term.toNat).map (fun i => i + 1)

/-- The array `pvs = np.array(nois) / ((1 + discount_rate) ** years)`
(src/app.py:113): element-wise division of the NOI list by the per-year discount factors. -/
def pvs (a : Assumptions) : List ℚ :=
  List.zipWith (fun x (t : ℕ) => x / (1 + a.discount_rate) ^ t) (nois a) (years a.term)

/-- The expression `tv = nois[-1] * (1 + long_growth) / (discount_rate - long_growth)`
(src/app.py:111): `nois[-1]` may raise `IndexError`, the division may raise
`ZeroDivisionError`, in that evaluation order. -/
def tv_calc (a : Assumptions) : Except PyError ℚ :=
  match pyLast (nois a) with
  | Except.error e => Except.error e
  | Except.ok last => pydiv (last * (1 + a.long_growth)) (a.discount_rate - a.long_growth)

/-- The nominal terminal value `noi(term) * (1 + long_growth) / (discount_rate
- long_growth)` as a rational (the value `tv_calc` returns when it succeeds). -/
def tvval (a : Assumptions) : ℚ :=
  noi_at a a.term.toNat * (1 + a.long_growth) / (a.discount_rate - a.long_growth)

/-- The function `income_valuation` (src/app.py:103-115): returns
`(nois, pvs, total_value)` with
`total_value = np.sum(pvs) + tv / ((1 + discount_rate) ** term)`,
propagating the Python runtime errors in source order. -/
def income_valuation (a : Assumptions) : Except PyError (List ℚ × List ℚ × ℚ) :=
  match tv_calc a with
  | Except.error e => Except.error e
  | Except.ok tv =>
      match pydiv tv ((1 + a.discount_rate) ^ a.term) with
      | Except.error e => Except.error e
      | Except.ok tvd => Except.ok (nois a, pvs a, (pvs a).sum + tvd)

/-- The `"+Δ"` parameter list of the `scenarios` dict (src/app.py:164-171),
as an assumption record (with the unperturbed `term` and `area` appended by
the call `income_valuation(*vals, term, area)`, src/app.py:183). -/
def upside (a : Assumptions) (delta : ℚ) : Assumptions :=
  { base_rent := a.base_rent * (1 + delta / 100)
    rent_growth := a.rent_growth * (1 + delta / 100)
    occupancy := a.occupancy * (1 + delta / 100)
    op_cost := a.op_cost
    discount_rate := a.discount_rate * (1 - delta / 100)
    long_growth := a.long_growth * (1 + delta / 100)
    term := a.term
    area := a.area }

/-- The `"-Δ"` parameter list of the `scenarios` dict (src/app.py:172-179). -/
def downside (a : Assumptions) (delta : ℚ) : Assumptions :=
  { base_rent := a.base_rent * (1 - delta / 100)
    rent_growth := a.rent_growth * (1 - delta / 100)
    occupancy := a.occupancy * (1 - delta / 100)
    op_cost := a.op_cost
    discount_rate := a.discount_rate * (1 + delta / 100)
    long_growth := a.long_growth * (1 - delta / 100)
    term := a.term
    area := a.area }

/-- The assumption sets of the `scenarios` dict in Python insertion order:
`"Base"`, `"+Δ"`, `"-Δ"` (src/app.py:162-180). -/
def scenario_list (a : Assumptions) (delta : ℚ) : List Assumptions :=
  [a, upside a delta, downside a delta]

/-- One iteration of the loop `values.append(val/1e4)` (src/app.py:182-184). -/
def scenario_value (a : Assumptions) : Except PyError ℚ :=
  match income_valuation a with
  | Except.error e => Except.error e
  | Except.ok r => Except.ok (r.2.2 / 10000)

/-- The loop `for key, vals in scenarios.items(): … values.append(val/1e4)`
(src/app.py:181-184) over any list of assumption sets: aborts at the first
failing call, like the Python loop. -/
def scenario_values_from : List Assumptions → Except PyError (List ℚ)
  | [] => Except.ok []
  | a :: rest =>
      match scenario_value a with
      | Except.error e => Except.error e
      | Except.ok v =>
          match scenario_values_from rest with
          | Except.error e => Except.error e
          | Except.ok vs => Except.ok (v :: vs)

/-- The `values` list (src/app.py:181-184), in dict order Base, +Δ, -Δ. -/
def scenario_values (a : Assumptions) (delta : ℚ) : Except PyError (List ℚ) :=
  scenario_values_from (scenario_list a delta)

/-- The rows of `sim_df` (src/app.py:185-188): the `"Scenario"` column
`["-Δ", "Base", "+Δ"]` paired with `values[::-1]`. -/
def sim_table (a : Assumptions) (delta : ℚ) : Except PyError (List (String × ℚ)) :=
  match scenario_values a delta with
  | Except.error e => Except.error e
  | Except.ok vs => Except.ok (List.zip ["-Δ", "Base", "+Δ"] vs.reverse)

/-- Spec formula for gross rent in year `t`:
`rent(t) = base_rent × (1 + rent_growth_rate)^t × occupancy_rate ×
gross_floor_area × 12` (spec §4.1 step 1). -/
def rent_spec (a : Assumptions) (t : ℕ) : ℚ :=
  a.base_rent * (1 + a.rent_growth) ^ t * a.occupancy * a.area * 12

/-- Spec formula `noi(t) = rent(t) × (1 − operating_cost_ratio)`
(spec §4.1 step 1). -/
def noi_spec (a : Assumptions) (t : ℕ) : ℚ :=
  rent_spec a t * (1 - a.op_cost)

/-- Spec formula `terminal_value = noi(term_years) × (1 + terminal_growth_rate)
/ (discount_rate − terminal_growth_rate)` (spec §4.1 step 2). -/
def specTV (a : Assumptions) : ℚ :=
  noi_spec a a.term.toNat * (1 + a.long_growth) / (a.discount_rate - a.long_growth)

/-- Spec formula `total_value = Σ present_value(t) for t in [1, term_years]
+ terminal_value / discount_factor(term_years)` with
`present_value(t) = noi(t) / (1 + discount_rate)^t` (spec §4.1 steps 3-5). -/
def specTotal (a : Assumptions) : ℚ :=
  Finset.sum (Finset.range a.term.toNat)
      (fun i => noi_spec a (i + 1) / (1 + a.discount_rate) ^ (i + 1)) +
    specTV a / (1 + a.discount_rate) ^ a.term.toNat

/-- Python `int()` on a rational: truncation toward zero. -/
def pyInt (q : ℚ) : ℤ :=
  if 0 ≤ q then ⌊q⌋ else -⌊-q⌋

/-- The parameters of `income_valuation` with a possibly fractional `term`,
for the case where the function is called with a non-integer period. -/
structure FracAssumptions where
  base_rent : ℚ
  rent_growth : ℚ
  occupancy : ℚ
  op_cost : ℚ
  discount_rate : ℚ
  long_growth : ℚ
  term : ℚ
  area : ℚ
deriving DecidableEq

/-- Year-`t` NOI for the fractional-term embedding (src/app.py:107-109,
the formula does not involve `term`). -/
def noiF (a : FracAssumptions) (t : ℕ) : ℚ :=
  a.base_rent * ((1 + a.rent_growth) ^ t) * a.occupancy * a.area * 12 -
    a.base_rent * ((1 + a.rent_growth) ^ t) * a.occupancy * a.area * 12 * a.op_cost

/-- The `nois` list with fractional `term`: the loop bound is
`range(1, int(term) + 1)`, truncating `term` (src/app.py:106). -/
def nois_frac (a : FracAssumptions) : List ℚ :=
  (List.range (pyInt a.term).toNat).map (fun i => noiF a (i + 1))

/-- `years = np.arange(1, int(term) + 1)` with fractional `term`
(src/app.py:112): the per-year discount exponents, also truncated. -/
def years_frac (a : FracAssumptions) : List ℕ :=
  (List.range (pyInt a.term).toNat).map (fun i => i + 1)

/-- `pvs` with fractional `term` (src/app.py:113): each NOI divided by
`(1 + discount_rate)` raised to the (truncated, integer) year number. -/
def pvs_frac (a : FracAssumptions) : List ℚ :=
  List.zipWith (fun x (t : ℕ) => x / (1 + a.discount_rate) ^ t) (nois_frac a) (years_frac a)

/-- The exponent of `(1 + discount_rate)` in the terminal-value discount
`tv / ((1 + discount_rate) ** term)` (src/app.py:114): the UN-truncated
`term`. -/
def tv_discount_exp (a : FracAssumptions) : ℚ :=
  a.term

/-- Sample inputs used as concrete test points. -/
def exA : Assumptions :=
  { base_rent := 1, rent_growth := 0, occupancy := 1, op_cost := 0,
    discount_rate := 1, long_growth := 0, term := 1, area := 1 }

/-- Input with `discount_rate < terminal_growth_rate` (C1). -/
def cexC1 : Assumptions :=
  { base_rent := 1, rent_growth := 0, occupancy := 1, op_cost := 0,
    discount_rate := 1/4, long_growth := 1/2, term := 1, area := 1 }

/-- Input with `discount_rate = terminal_growth_rate` (C1). -/
def cexEq : Assumptions :=
  { base_rent := 1, rent_growth := 0, occupancy := 1, op_cost := 0,
    discount_rate := 1/20, long_growth := 1/20, term := 1, area := 1 }

/-- Input with `term = 0` (C6). -/
def cexC6 : Assumptions :=
  { base_rent := 1, rent_growth := 0, occupancy := 1, op_cost := 0,
    discount_rate := 1/10, long_growth := 0, term := 0, area := 1 }

/-- Input with `rent_growth = -2` (i.e. -200%), valid per the data model,
making every year's rent negative (C7, C9). -/
def cexC7 : Assumptions :=
  { base_rent := 1, rent_growth := -2, occupancy := 1, op_cost := 0,
    discount_rate := 1/2, long_growth := 0, term := 1, area := 1 }

/-- `cexC7` with only the discount rate raised (C7). -/
def cexC7' : Assumptions :=
  { cexC7 with discount_rate := 1 }

/-- Fractional-term input `term = 5/2` (C10). -/
def exF : FracAssumptions :=
  { base_rent := 1, rent_growth := 0, occupancy := 1, op_cost := 0,
    discount_rate := 1/10, long_growth := 0, term := 5/2, area := 1 }

lemma zipWith_map_same {α β γ δ : Type} (f : β → γ → δ) (g : α → β) (h : α → γ)
    (l : List α) :
    List.zipWith f (l.map g) (l.map h) = l.map (fun x => f (g x) (h x)) := by
  induction l with
  | nil => rfl
  | cons a t ih => simp [ih]

lemma map_range_getLast {α : Type} (f : ℕ → α) (n : ℕ) (h : 0 < n) :
    ((List.range n).map f).getLast? = some (f (n - 1)) := by
  cases n with
  | zero => omega
  | succ m => rw [List.range_succ, List.map_append]; simp

lemma sum_map_range (n : ℕ) (f : ℕ → ℚ) :
    ((List.range n).map f).sum = Finset.sum (Finset.range n) f := by
  induction n with
  | zero => simp
  | succ m ih =>
      rw [List.range_succ, List.map_append, List.sum_append, Finset.sum_range_succ, ih]
      simp

lemma map_range_eq_range' (n : ℕ) :
    (List.range n).map (fun i => i + 1) = List.range' 1 n := by
  induction n with
  | zero => rfl
  | succ m ih =>
      rw [List.range_succ, List.map_append, ih, List.range'_concat]
      simp [Nat.add_comm]

lemma nois_getLast (a : Assumptions) (h : 1 ≤ a.term) :
    (nois a).getLast? = some (noi_at a a.term.toNat) := by
  have hn : 0 < a.term.toNat := by omega
  have he : a.term.toNat - 1 + 1 = a.term.toNat := by omega
  unfold nois
  rw [map_range_getLast _ _ hn, he]

lemma tv_calc_eq (a : Assumptions) (h1 : 1 ≤ a.term)
    (h2 : a.discount_rate - a.long_growth ≠ 0) :
    tv_calc a = Except.ok (tvval a) := by
  simp only [tv_calc, pyLast, nois_getLast a h1, pydiv, if_neg h2, tvval]

lemma income_valuation_eq (a : Assumptions) (h1 : 1 ≤ a.term)
    (h2 : a.discount_rate - a.long_growth ≠ 0)
    (h3 : ((1 : ℚ) + a.discount_rate) ^ a.term ≠ 0) :
    income_valuation a =
      Except.ok (nois a, pvs a,
        (pvs a).sum + tvval a / (1 + a.discount_rate) ^ a.term) := by
  simp only [income_valuation, tv_calc_eq a h1 h2, pydiv, if_neg h3]

lemma ok_components (a : Assumptions) (r : List ℚ × List ℚ × ℚ)
    (h : income_valuation a = Except.ok r) : r.1 = nois a ∧ r.2.1 = pvs a := by
  cases h1 : tv_calc a with
  | error e =>
      simp only [income_valuation, h1] at h
      exact Except.noConfusion h
  | ok tv =>
      cases h2 : pydiv tv ((1 + a.discount_rate) ^ a.term) with
      | error e =>
          simp only [income_valuation, h1, h2] at h
          exact Except.noConfusion h
      | ok tvd =>
          simp only [income_valuation, h1, h2, Except.ok.injEq] at h
          rw [← h]
          exact ⟨rfl, rfl⟩

lemma noi_at_eq_spec (a : Assumptions) (t : ℕ) : noi_at a t = noi_spec a t := by
  unfold noi_at cost_at rent_at noi_spec rent_spec
  ring

lemma pvs_eq_map (a : Assumptions) :
    pvs a = (List.range a.term.toNat).map
      (fun i => noi_at a (i + 1) / (1 + a.discount_rate) ^ (i + 1)) := by
  unfold pvs nois years
  rw [zipWith_map_same]

lemma pvs_sum (a : Assumptions) :
    (pvs a).sum = Finset.sum (Finset.range a.term.toNat)
      (fun i => noi_at a (i + 1) / (1 + a.discount_rate) ^ (i + 1)) := by
  rw [pvs_eq_map, sum_map_range]

lemma zpow_term_eq (a : Assumptions) (h : 1 ≤ a.term) (x : ℚ) :
    x ^ a.term = x ^ a.term.toNat := by
  have he : a.term = (a.term.toNat : ℤ) := by omega
  nth_rewrite 1 [he]
  rw [zpow_natCast]

lemma total_merge (a : Assumptions) (h1 : 1 ≤ a.term)
    (hx : (1:ℚ) + a.discount_rate ≠ 0)
    (hd : a.discount_rate - a.long_growth ≠ 0) :
    (pvs a).sum + tvval a / (1 + a.discount_rate) ^ a.term =
      Finset.sum (Finset.range (a.term.toNat - 1))
          (fun i => noi_at a (i + 1) / (1 + a.discount_rate) ^ (i + 1)) +
        noi_at a a.term.toNat /
          ((1 + a.discount_rate) ^ (a.term.toNat - 1) *
            (a.discount_rate - a.long_growth)) := by
  obtain ⟨m, hm⟩ : ∃ m, a.term.toNat = m + 1 := ⟨a.term.toNat - 1, by omega⟩
  rw [pvs_sum, zpow_term_eq a h1]
  unfold tvval
  rw [hm]
  simp only [Nat.add_sub_cancel]
  rw [Finset.sum_range_succ, add_assoc]
  congr 1
  field_simp
  ring

lemma rent_pos (a : Assumptions) (t : ℕ) (hbr : 0 < a.base_rent)
    (hg : -1 < a.rent_growth) (hocc : 0 < a.occupancy) (harea : 0 < a.area) :
    0 < rent_at a t := by
  have h1 : (0:ℚ) < 1 + a.rent_growth := by linarith
  unfold rent_at
  exact mul_pos (mul_pos (mul_pos (mul_pos hbr (pow_pos h1 t)) hocc) harea)
    (by norm_num : (0:ℚ) < 12)

lemma noi_pos (a : Assumptions) (t : ℕ) (hbr : 0 < a.base_rent)
    (hg : -1 < a.rent_growth) (hocc : 0 < a.occupancy) (hcost : a.op_cost < 1)
    (harea : 0 < a.area) : 0 < noi_at a t := by
  have he : noi_at a t = rent_at a t * (1 - a.op_cost) := by
    unfold noi_at cost_at
    ring
  rw [he]
  exact mul_pos (rent_pos a t hbr hg hocc harea) (by linarith)

lemma tv_calc_ne_ok_of_eq (a : Assumptions) (h : a.discount_rate = a.long_growth) :
    ∀ x : ℚ, tv_calc a ≠ Except.ok x := by
  intro x
  unfold tv_calc pyLast
  cases hgl : (nois a).getLast? with
  | none => simp
  | some last => simp [pydiv, h]

lemma pyInt_of_nonneg (q : ℚ) (h : 0 ≤ q) : pyInt q = ⌊q⌋ := by
  unfold pyInt
  rw [if_pos h]








/-- C1 counterexample: at `cexC1` the discount rate (1/4) is strictly below
the terminal growth rate (1/2), yet `income_valuation` raises nothing and
returns a numeric result (total −48, with a negative terminal value), contrary
to the claim that such a call never returns a value. -/
theorem C1_counterexample :
    cexC1.discount_rate < cexC1.long_growth ∧
      income_valuation cexC1 = Except.ok ([12], [48/5], -48) := by
  constructor
  · norm_num [cexC1]
  · norm_num [income_valuation, tv_calc, pydiv, pyLast, nois, pvs, years, noi_at, cost_at,
      rent_at, cexC1, List.range_succ]

/-- C1 amended: with `discount_rate = terminal_growth_rate` the call fails
(Python `ZeroDivisionError`, or `IndexError` when the term is empty) and
produces no result; but with `discount_rate < terminal_growth_rate` (and
otherwise valid, cash-flow-positive assumptions) the code silently returns a
numeric total whose terminal value is negative — there is no `DomainError`
check in the code. -/
theorem C1_amended_behavior (a : Assumptions) :
    (a.discount_rate = a.long_growth → ∀ r, income_valuation a ≠ Except.ok r) ∧
      (a.discount_rate < a.long_growth → 0 < a.discount_rate → 1 ≤ a.term →
        0 < a.base_rent → -1 < a.rent_growth → 0 < a.occupancy → a.op_cost < 1 →
        0 < a.area →
        income_valuation a =
            Except.ok (nois a, pvs a,
              (pvs a).sum + tvval a / (1 + a.discount_rate) ^ a.term) ∧
          tvval a < 0) := by
  constructor
  · intro h r
    cases htc : tv_calc a with
    | error e => simp [income_valuation, htc]
    | ok tv => exact absurd htc (tv_calc_ne_ok_of_eq a h tv)
  · intro hlt hdr hterm hbr hg hocc hcost harea
    have hd : a.discount_rate - a.long_growth ≠ 0 := sub_ne_zero.mpr (ne_of_lt hlt)
    have hb : (0:ℚ) < 1 + a.discount_rate := by linarith
    refine ⟨income_valuation_eq a hterm hd (zpow_ne_zero _ (ne_of_gt hb)), ?_⟩
    have hnoi : 0 < noi_at a a.term.toNat := noi_pos a _ hbr hg hocc hcost harea
    have hlg : (0:ℚ) < 1 + a.long_growth := by linarith
    have hnum : 0 < noi_at a a.term.toNat * (1 + a.long_growth) := mul_pos hnoi hlg
    have hden : a.discount_rate - a.long_growth < 0 := by linarith
    unfold tvval
    exact div_neg_of_pos_of_neg hnum hden

/-- Witness for C1's amended statement: at `cexEq` (equal rates) the call
produces no `ok` result, and at `cexC1` (discount below growth) it returns a
total with a negative terminal value. -/
theorem C1_amended_witness :
    income_valuation cexEq ≠ Except.ok ([12], [48/5], -48) ∧
      (income_valuation cexC1 =
          Except.ok (nois cexC1, pvs cexC1,
            (pvs cexC1).sum + tvval cexC1 / (1 + cexC1.discount_rate) ^ cexC1.term) ∧
        tvval cexC1 < 0) :=
  ⟨(C1_amended_behavior cexEq).1 (by norm_num [cexEq]) _,
   (C1_amended_behavior cexC1).2 (by norm_num [cexC1]) (by norm_num [cexC1])
     (by norm_num [cexC1]) (by norm_num [cexC1]) (by norm_num [cexC1])
     (by norm_num [cexC1]) (by norm_num [cexC1]) (by norm_num [cexC1])⟩

/-- C2: for every valid assumption set (`term_years ≥ 1`,
`discount_rate > terminal_growth_rate`, `discount_rate > 0`),
`income_valuation` returns the cash-flow and present-value sequences together
with a total that equals the spec formula: the sum over `t ∈ [1, term]` of
`noi(t) / (1 + discount_rate)^t` plus
`terminal_value / (1 + discount_rate)^term`, with
`noi(t) = rent(t) × (1 − operating_cost_ratio)`. -/
theorem C2_total_value_formula (a : Assumptions) (h1 : 1 ≤ a.term)
    (h2 : a.long_growth < a.discount_rate) (h3 : 0 < a.discount_rate) :
    income_valuation a = Except.ok (nois a, pvs a, specTotal a) := by
  have hd : a.discount_rate - a.long_growth ≠ 0 := sub_ne_zero.mpr (ne_of_gt h2)
  have hb : (0:ℚ) < 1 + a.discount_rate := by linarith
  have hz : ((1:ℚ) + a.discount_rate) ^ a.term ≠ 0 := zpow_ne_zero _ (ne_of_gt hb)
  rw [income_valuation_eq a h1 hd hz]
  have he : (pvs a).sum + tvval a / (1 + a.discount_rate) ^ a.term = specTotal a := by
    rw [pvs_sum, zpow_term_eq a h1]
    unfold specTotal
    congr 1
    · exact Finset.sum_congr rfl (fun i _ => by rw [noi_at_eq_spec])
    · unfold tvval specTV
      rw [noi_at_eq_spec]
  rw [he]

/-- Witness for C2 at the concrete input `exA`. -/
theorem C2_total_value_formula_witness :
    income_valuation exA = Except.ok (nois exA, pvs exA, specTotal exA) :=
  C2_total_value_formula exA (by norm_num [exA]) (by norm_num [exA]) (by norm_num [exA])

/-- C4: for every assumption set and year `t ∈ [1, term]`, the gross rent of
year `t` is `base_rent × (1 + rent_growth)^t × occupancy × area × 12`, and
the `t`-th entry of the cash-flow list is that rent minus the proportional
operating cost. -/
theorem C4_rent_formula (a : Assumptions) (t : ℕ) (h1 : 1 ≤ t)
    (h2 : t ≤ a.term.toNat) :
    rent_at a t = a.base_rent * (1 + a.rent_growth) ^ t * a.occupancy * a.area * 12 ∧
      (nois a)[t - 1]? = some (rent_at a t - rent_at a t * a.op_cost) := by
  constructor
  · unfold rent_at
    ring
  · unfold nois
    have hlt : t - 1 < a.term.toNat := by omega
    have he : t - 1 + 1 = t := by omega
    rw [List.getElem?_map, List.getElem?_range hlt]
    simp only [Option.map_some', he]
    unfold noi_at cost_at
    rfl

/-- Witness for C4 at `exA`, year 1. -/
theorem C4_rent_formula_witness :
    rent_at exA 1 = exA.base_rent * (1 + exA.rent_growth) ^ 1 * exA.occupancy * exA.area * 12 ∧
      (nois exA)[0]? = some (rent_at exA 1 - rent_at exA 1 * exA.op_cost) :=
  C4_rent_formula exA 1 (le_refl 1) (by norm_num [exA])

/-- C5: for every valid assumption set, the terminal value computed at
src/app.py:111 is exactly `noi(term_years) × (1 + terminal_growth_rate) /
(discount_rate − terminal_growth_rate)` — the last explicit year's NOI grown
one more period and capitalized by the Gordon-growth formula. -/
theorem C5_terminal_value (a : Assumptions) (h1 : 1 ≤ a.term)
    (h2 : a.long_growth < a.discount_rate) :
    tv_calc a = Except.ok (specTV a) := by
  have hd : a.discount_rate - a.long_growth ≠ 0 := sub_ne_zero.mpr (ne_of_gt h2)
  rw [tv_calc_eq a h1 hd]
  unfold tvval specTV
  rw [noi_at_eq_spec]

/-- Witness for C5 at `exA`. -/
theorem C5_terminal_value_witness : tv_calc exA = Except.ok (specTV exA) :=
  C5_terminal_value exA (by norm_num [exA]) (by norm_num [exA])

/-- C6 counterexample: at `term = 0` the code does fail and produce no result,
but the failure is an `IndexError` raised by `nois[-1]` on the empty list (the
projection loop has already run zero times) — not a `DomainError` precondition
check; the code contains no `DomainError` or term validation at all. -/
theorem C6_counterexample :
    cexC6.term = 0 ∧ income_valuation cexC6 = Except.error PyError.indexError := by
  constructor
  · rfl
  · norm_num [income_valuation, tv_calc, pydiv, pyLast, nois, pvs, years, noi_at, cost_at,
      rent_at, cexC6, List.range_succ]

/-- C6 amended: for every assumption set with `term_years < 1`,
`income_valuation` fails and produces no result — via an `IndexError` from the
empty cash-flow list, not via a `DomainError("invalid term")` check. -/
theorem C6_amended_fails (a : Assumptions) (h : a.term < 1) :
    income_valuation a = Except.error PyError.indexError := by
  have h0 : a.term.toNat = 0 := by omega
  have hnil : nois a = [] := by
    unfold nois
    rw [h0]
    rfl
  simp only [income_valuation, tv_calc, pyLast, hnil, List.getLast?_nil]

/-- Witness for C6's amended statement at `term = 0`. -/
theorem C6_amended_witness :
    income_valuation cexC6 = Except.error PyError.indexError :=
  C6_amended_fails cexC6 (by norm_num [cexC6])

/-- C7 counterexample: `cexC7` is valid per the spec data model (positive
base rent, occupancy in (0,1], cost ratio in [0,1), positive discount rate
exceeding the terminal growth rate, term ≥ 1, positive area), but its rent
growth rate is −200%, making every cash flow negative; raising the discount
rate from 1/2 to 1 then RAISES the total from −24 to −12, violating strict
decrease. -/
theorem C7_counterexample :
    (0 < cexC7.base_rent ∧ 0 < cexC7.occupancy ∧ cexC7.occupancy ≤ 1 ∧
      0 ≤ cexC7.op_cost ∧ cexC7.op_cost < 1 ∧ 0 < cexC7.discount_rate ∧
      cexC7.long_growth < cexC7.discount_rate ∧ 1 ≤ cexC7.term ∧ 0 < cexC7.area ∧
      cexC7' = { cexC7 with discount_rate := 1 } ∧
      cexC7.discount_rate < cexC7'.discount_rate) ∧
      income_valuation cexC7 = Except.ok ([-12], [-8], -24) ∧
      income_valuation cexC7' = Except.ok ([-12], [-6], -12) ∧
      ¬ ((-12 : ℚ) < -24) := by
  refine ⟨by norm_num [cexC7, cexC7'], ?_, ?_, by norm_num⟩
  · norm_num [income_valuation, tv_calc, pydiv, pyLast, nois, pvs, years, noi_at, cost_at,
      rent_at, cexC7, List.range_succ]
  · norm_num [income_valuation, tv_calc, pydiv, pyLast, nois, pvs, years, noi_at, cost_at,
      rent_at, cexC7', cexC7, List.range_succ]

/-- C7 amended: the strict antitonicity of the total in the discount rate
holds once the assumptions generate positive cash flows — additionally
`rent_growth > −1`: then for any `dr' > discount_rate` (both above the
terminal growth rate, both positive) both calls succeed and the second total
is strictly smaller, for ANY terminal growth rate below the discount rate. -/
theorem C7_amended_antitone (a : Assumptions) (dr' : ℚ)
    (hbr : 0 < a.base_rent) (hg : -1 < a.rent_growth) (hocc : 0 < a.occupancy)
    (hcost : a.op_cost < 1) (harea : 0 < a.area)
    (hterm : 1 ≤ a.term) (hpre : a.long_growth < a.discount_rate)
    (hdr : 0 < a.discount_rate) (hlt : a.discount_rate < dr') :
    income_valuation a =
        Except.ok (nois a, pvs a,
          (pvs a).sum + tvval a / (1 + a.discount_rate) ^ a.term) ∧
      income_valuation { a with discount_rate := dr' } =
        Except.ok (nois { a with discount_rate := dr' }, pvs { a with discount_rate := dr' },
          (pvs { a with discount_rate := dr' }).sum +
            tvval { a with discount_rate := dr' } / (1 + dr') ^ a.term) ∧
      (pvs { a with discount_rate := dr' }).sum +
          tvval { a with discount_rate := dr' } / (1 + dr') ^ a.term <
        (pvs a).sum + tvval a / (1 + a.discount_rate) ^ a.term := by
  have hb1 : (0:ℚ) < 1 + a.discount_rate := by linarith
  have hb2 : (0:ℚ) < 1 + dr' := by linarith
  have hden1 : (0:ℚ) < a.discount_rate - a.long_growth := by linarith
  have hden2 : (0:ℚ) < dr' - a.long_growth := by linarith
  have hiv1 := income_valuation_eq a hterm (ne_of_gt hden1) (zpow_ne_zero _ (ne_of_gt hb1))
  have hiv2 := income_valuation_eq { a with discount_rate := dr' } hterm
    (ne_of_gt hden2) (zpow_ne_zero _ (ne_of_gt hb2))
  refine ⟨hiv1, hiv2, ?_⟩
  have hnoi : ∀ t : ℕ, 0 < noi_at a t := fun t => noi_pos a t hbr hg hocc hcost harea
  show (pvs { a with discount_rate := dr' }).sum +
      tvval { a with discount_rate := dr' } /
        (1 + ({ a with discount_rate := dr' } : Assumptions).discount_rate) ^
          ({ a with discount_rate := dr' } : Assumptions).term <
    (pvs a).sum + tvval a / (1 + a.discount_rate) ^ a.term
  rw [total_merge { a with discount_rate := dr' } hterm (ne_of_gt hb2) (ne_of_gt hden2),
    total_merge a hterm (ne_of_gt hb1) (ne_of_gt hden1)]
  apply add_lt_add_of_le_of_lt
  · apply Finset.sum_le_sum
    intro i _
    show noi_at a (i + 1) / (1 + dr') ^ (i + 1) ≤
      noi_at a (i + 1) / (1 + a.discount_rate) ^ (i + 1)
    exact le_of_lt (div_lt_div_of_pos_left (hnoi (i + 1)) (pow_pos hb1 (i + 1))
      (pow_lt_pow_left (by linarith) (le_of_lt hb1) (Nat.succ_ne_zero i)))
  · show noi_at a a.term.toNat /
        ((1 + dr') ^ (a.term.toNat - 1) * (dr' - a.long_growth)) <
      noi_at a a.term.toNat /
        ((1 + a.discount_rate) ^ (a.term.toNat - 1) *
          (a.discount_rate - a.long_growth))
    apply div_lt_div_of_pos_left (hnoi _)
    · exact mul_pos (pow_pos hb1 _) hden1
    · exact mul_lt_mul' (pow_le_pow_left (le_of_lt hb1) (by linarith) _)
        (by linarith) (le_of_lt hden1) (pow_pos hb2 _)

/-- Witness for C7's amended statement at `exA` with the discount rate raised
from 1 to 2. -/
theorem C7_amended_witness :
    income_valuation exA =
        Except.ok (nois exA, pvs exA,
          (pvs exA).sum + tvval exA / (1 + exA.discount_rate) ^ exA.term) ∧
      income_valuation { exA with discount_rate := 2 } =
        Except.ok (nois { exA with discount_rate := 2 }, pvs { exA with discount_rate := 2 },
          (pvs { exA with discount_rate := 2 }).sum +
            tvval { exA with discount_rate := 2 } / (1 + 2) ^ exA.term) ∧
      (pvs { exA with discount_rate := 2 }).sum +
          tvval { exA with discount_rate := 2 } / (1 + 2) ^ exA.term <
        (pvs exA).sum + tvval exA / (1 + exA.discount_rate) ^ exA.term :=
  C7_amended_antitone exA 2 (by norm_num [exA]) (by norm_num [exA]) (by norm_num [exA])
    (by norm_num [exA]) (by norm_num [exA]) (by norm_num [exA]) (by norm_num [exA])
    (by norm_num [exA]) (by norm_num [exA])

/-- C8: whenever `income_valuation` returns a result (with `term ≥ 1`), the
cash-flow sequence has length exactly `term`, is nonempty, the present-value
sequence has the same length, and the year numbers are `1, …, term` in
strictly increasing chronological order. -/
theorem C8_sequence_shape (a : Assumptions) (r : List ℚ × List ℚ × ℚ)
    (h1 : 1 ≤ a.term) (h : income_valuation a = Except.ok r) :
    r.1.length = a.term.toNat ∧ r.1 ≠ [] ∧ r.2.1.length = a.term.toNat ∧
      years a.term = List.range' 1 a.term.toNat ∧
      List.Pairwise (fun x y => x < y) (years a.term) := by
  obtain ⟨e1, e2⟩ := ok_components a r h
  refine ⟨?_, ?_, ?_, ?_, ?_⟩
  · rw [e1]
    simp [nois]
  · rw [e1]
    apply List.ne_nil_of_length_pos
    simp only [nois, List.length_map, List.length_range]
    omega
  · rw [e2]
    simp [pvs, nois, years]
  · unfold years
    exact map_range_eq_range' _
  · unfold years
    exact List.Pairwise.map _ (fun x y hxy => by omega) (List.pairwise_lt_range _)

/-- Witness for C8 at `exA`. -/
theorem C8_sequence_shape_witness :
    ([(12:ℚ)]).length = exA.term.toNat ∧ [(12:ℚ)] ≠ [] ∧
      ([(6:ℚ)]).length = exA.term.toNat ∧
      years exA.term = List.range' 1 exA.term.toNat ∧
      List.Pairwise (fun x y => x < y) (years exA.term) :=
  C8_sequence_shape exA ([12], [6], 12) (by norm_num [exA])
    (by norm_num [income_valuation, tv_calc, pydiv, pyLast, nois, pvs, years, noi_at,
      cost_at, rent_at, exA, List.range_succ])

/-- C9 counterexample: `cexC7` has positive base rent, occupancy and area, yet
(because its rent growth rate is −200%, which the claim does not exclude) the
year-1 rent is −12 < 0, refuting `rent(t) > 0`. -/
theorem C9_counterexample :
    0 < cexC7.base_rent ∧ 0 < cexC7.occupancy ∧ 0 < cexC7.area ∧
      1 ≤ cexC7.term ∧ rent_at cexC7 1 = -12 ∧ ¬ (0 < rent_at cexC7 1) := by
  norm_num [cexC7, rent_at]

/-- C9 amended: the rent of every year `t ∈ [1, term]` is strictly positive
whenever `base_rent, occupancy, area > 0` AND `rent_growth > −1`. -/
theorem C9_amended_rent_pos (a : Assumptions) (t : ℕ) (h1 : 1 ≤ t)
    (h2 : t ≤ a.term.toNat) (hbr : 0 < a.base_rent) (hocc : 0 < a.occupancy)
    (harea : 0 < a.area) (hg : -1 < a.rent_growth) : 0 < rent_at a t :=
  rent_pos a t hbr hg hocc harea

/-- Witness for C9's amended statement at `exA`, year 1. -/
theorem C9_amended_witness : 0 < rent_at exA 1 :=
  C9_amended_rent_pos exA 1 (le_refl 1) (by norm_num [exA]) (by norm_num [exA])
    (by norm_num [exA]) (by norm_num [exA]) (by norm_num [exA])

/-- C3 (code bug): at the failing input `exA` with `delta = 20`, the scenario
table pairs the label "Base" with 27/12500 — which is the UPSIDE scenario's
valuation (108/5) scaled by 1/10⁴ — and pairs "+Δ" with 3/2500, the BASE
valuation (12) scaled by 1/10⁴.  The `values[::-1]` reversal at
src/app.py:187 mispairs the labels with the computed values; only "-Δ" gets
its own value.  The claim (each label reports its own scenario's valuation)
fails for Base and +Δ. -/
theorem C3_scenario_mislabeling :
    sim_table exA 20 =
        Except.ok [("-Δ", 2/3125), ("Base", 27/12500), ("+Δ", 3/2500)] ∧
      income_valuation exA = Except.ok ([12], [6], 12) ∧
      income_valuation (upside exA 20) = Except.ok ([432/25], [48/5], 108/5) ∧
      income_valuation (downside exA 20) = Except.ok ([192/25], [192/55], 352/55) ∧
      (12 : ℚ) / 10000 = 3/2500 ∧ (108/5 : ℚ) / 10000 = 27/12500 ∧
      (27/12500 : ℚ) ≠ 3/2500 := by
  refine ⟨?_, ?_, ?_, ?_, by norm_num, by norm_num, by norm_num⟩
  · norm_num [sim_table, scenario_values, scenario_values_from, scenario_list,
      scenario_value, upside, downside, income_valuation, tv_calc, pydiv, pyLast, nois,
      pvs, years, noi_at, cost_at, rent_at, exA, List.range_succ]
  · norm_num [income_valuation, tv_calc, pydiv, pyLast, nois, pvs, years, noi_at, cost_at,
      rent_at, exA, List.range_succ]
  · norm_num [income_valuation, tv_calc, pydiv, pyLast, nois, pvs, years, noi_at, cost_at,
      rent_at, upside, exA, List.range_succ]
  · norm_num [income_valuation, tv_calc, pydiv, pyLast, nois, pvs, years, noi_at, cost_at,
      rent_at, downside, exA, List.range_succ]

/-- C10: with a (possibly fractional) term `x` such that `int(x) ≥ 1`, the
projection loop produces exactly `int(x)` cash flows and `int(x)`
present values, the last projected year is `int(x)` (the per-year discount
exponents are the truncated years), while the terminal-value discount
exponent at src/app.py:114 is the UN-truncated `x`; that exponent coincides
with the final projected year's exponent exactly when `x` is an integer
(denominator 1). -/
theorem C10_truncated_loop_untruncated_tv (a : FracAssumptions)
    (h : 1 ≤ pyInt a.term) :
    (nois_frac a).length = (pyInt a.term).toNat ∧
      (pvs_frac a).length = (pyInt a.term).toNat ∧
      (years_frac a).getLast? = some (pyInt a.term).toNat ∧
      (tv_discount_exp a = ((pyInt a.term : ℤ) : ℚ) ↔ a.term.den = 1) := by
  have hq : (0:ℚ) ≤ a.term := by
    by_contra hneg
    push_neg at hneg
    have hnn : (0:ℚ) ≤ -a.term := by linarith
    have hfl : (0:ℤ) ≤ ⌊-a.term⌋ := Int.floor_nonneg.mpr hnn
    have hp : pyInt a.term = -⌊-a.term⌋ := by
      unfold pyInt
      rw [if_neg (not_le.mpr hneg)]
    omega
  have hflr : pyInt a.term = ⌊a.term⌋ := pyInt_of_nonneg a.term hq
  have hn : 0 < (pyInt a.term).toNat := by omega
  refine ⟨?_, ?_, ?_, ?_⟩
  · simp [nois_frac]
  · simp [pvs_frac, nois_frac, years_frac]
  · unfold years_frac
    rw [map_range_getLast _ _ hn]
    congr 1
    omega
  · constructor
    · intro hEq
      have h5 : a.term = ((⌊a.term⌋ : ℤ) : ℚ) := by
        rw [← hflr]
        exact hEq
      rw [h5, Rat.den_intCast]
    · intro hden
      have hnum : ((a.term.num : ℤ) : ℚ) = a.term := by
        have hd := Rat.num_div_den a.term
        rw [hden] at hd
        simpa using hd
      show a.term = ((pyInt a.term : ℤ) : ℚ)
      rw [hflr, ← hnum, Int.floor_intCast]

/-- Witness for C10 at `exF` (`term = 5/2`, so `int(term) = 2`). -/
theorem C10_witness :
    (nois_frac exF).length = (pyInt exF.term).toNat ∧
      (pvs_frac exF).length = (pyInt exF.term).toNat ∧
      (years_frac exF).getLast? = some (pyInt exF.term).toNat ∧
      (tv_discount_exp exF = ((pyInt exF.term : ℤ) : ℚ) ↔ exF.term.den = 1) :=
  C10_truncated_loop_untruncated_tv exF (by norm_num [pyInt, exF])
